import Mathlib

/-!
Verification of the pyunitelway UNI-TELWAY client library.

Byte buffers are modelled as `List Nat`. Python list indexing raises
`IndexError` on an out-of-range access; wherever such an access is reachable
the model returns `Option`/`Except` with an `indexError` outcome. Python list
slicing clamps to the list bounds, exactly like `List.take`/`List.drop`.
-/

namespace Pyunitelway

/-- Modelled from the spec: `constants.py` is not under `src/`. Section 6 of the
spec fixes the framing byte DLE = 0x10. -/
def DLE : Nat := 0x10

/-- Modelled from the spec: `constants.py` is not under `src/`. Section 6 of the
spec fixes the framing byte STX = 0x02. -/
def STX : Nat := 0x02

/-- Modelled from the spec: `constants.py` is not under `src/`. Section 6 of the
spec fixes the framing byte ENQ = 0x05. -/
def ENQ : Nat := 0x05

/-- Modelled from the spec: `constants.py` is not under `src/`. Section 8 of the
spec fixes READ_INTERNAL_WORD = 0x04 (response code 0x34). -/
def READ_INTERNAL_WORD : Nat := 0x04

/-- Modelled from the spec: the fixed response-code table `RESPONSE_CODES` of the
missing `constants.py`, as an association list. Only the entries the spec pins
are included: section 8 scenario 2 gives WRITE_INTERNAL_WORD = 0x14 with fixed
response 0xFE, scenario 1 gives MIRROR = 0xFA with response 0x5A. Read-like
request codes (such as READ_INTERNAL_WORD = 0x04) are absent from the table and
fall back to request code + 0x30 (spec sections 3 and 8). -/
def RESPONSE_CODES : List (Nat × Nat) := [(0x14, 0xFE), (0xFA, 0x5A)]

/-- `utils.get_response_code`: table lookup, else request code + 0x30. -/
def get_response_code (query_code : Nat) : Nat :=
  match RESPONSE_CODES.lookup query_code with
  | some c => c
  | none => query_code + 0x30

/-- `utils.is_valid_response_code`: 0xFD or the expected response code. -/
def is_valid_response_code (query_code resp_code : Nat) : Bool :=
  resp_code == 0xFD || resp_code == get_response_code query_code

/-- `utils.compute_bcc`: sum of all bytes modulo 256. -/
def compute_bcc (unitelway_bytes : List Nat) : Nat :=
  unitelway_bytes.sum % 256

/-- `utils.check_unitelway`: `compute_bcc(response[:-1]) == response[-1]`.
Python raises IndexError on an empty list; every caller in the decode pipeline
reaches this with at least 4 bytes, so the `getD 0` default is never used. -/
def check_unitelway (response : List Nat) : Bool :=
  compute_bcc response.dropLast == (response.getLast?).getD 0

/-- The loop of `utils.compute_response_length` (utils.py lines 165-170).
Python evaluates `unitelway[i] == DLE & unitelway[i+1] == DLE`, a chained
comparison whose middle operand is the bitwise AND `DLE & unitelway[i+1]`;
both indexings happen before any comparison, so the guard demands
`i + 1 < length` (otherwise Python raises IndexError, modelled as `none`).
In the body `len_count` is first conditionally decremented and then always
incremented, and `i` always advances by one. The loop runs only while
`i + 1 < u.length` and `i` strictly increases, so it performs at most
`u.length` steps; `fuel` is structural-recursion fuel and the callers pass
`u.length + 1`, which therefore can never run out before a genuine exit. -/
def crl_loop (u : List Nat) (length : Nat) : Nat → Nat → Nat → Option Nat
  | 0, _, _ => none
  | fuel + 1, i, len_count =>
    if len_count ≤ length then
      if i + 1 < u.length then
        let b := u.getD i 0
        let b1 := u.getD (i + 1) 0
        let len_count1 :=
          if b = (DLE &&& b1) ∧ (DLE &&& b1) = DLE then len_count - 1 else len_count
        crl_loop u length fuel (i + 1) (len_count1 + 1)
      else none
    else some (i + 1)

/-- `utils.compute_response_length`: reads the length byte at offset 3 and walks
the wire bytes from offset 4, then returns `i + 1`. -/
def compute_response_length (unitelway : List Nat) : Option Nat :=
  match unitelway[3]? with
  | none => none
  | some length => crl_loop unitelway length (unitelway.length + 1) 4 1

/-- The loop of the spec's corrected length walk (spec sections 4.2 and 9):
an adjacent pair counts as one logical byte exactly when both bytes equal DLE,
i.e. the logical AND of two equality checks on adjacent bytes. Fuel as in
`crl_loop`. -/
def crl_loop_spec (u : List Nat) (length : Nat) : Nat → Nat → Nat → Option Nat
  | 0, _, _ => none
  | fuel + 1, i, len_count =>
    if len_count ≤ length then
      if i + 1 < u.length then
        let b := u.getD i 0
        let b1 := u.getD (i + 1) 0
        let len_count1 := if b = DLE ∧ b1 = DLE then len_count - 1 else len_count
        crl_loop_spec u length fuel (i + 1) (len_count1 + 1)
      else none
    else some (i + 1)

/-- Modelled from the spec: the length walk as the spec words it (sections 4.2
step 1 and 9), differing from `compute_response_length` only in using two
equality checks where the source uses a bitwise `&`. -/
def compute_response_length_spec (unitelway : List Nat) : Option Nat :=
  match unitelway[3]? with
  | none => none
  | some length => crl_loop_spec unitelway length (unitelway.length + 1) 4 1

/-- Tail of `utils.duplicate_dle`: from `start_index` on, every DLE byte is
doubled. The Python loop edits the list in place (`insert` then skip two);
its net effect on the suffix is this pure map. -/
def duplicate_dle_tail : List Nat → List Nat
  | [] => []
  | b :: rest =>
    if b = DLE then b :: b :: duplicate_dle_tail rest
    else b :: duplicate_dle_tail rest

/-- `utils.duplicate_dle`: bytes before `start_index` are untouched, every DLE
from `start_index` to the end is doubled. -/
def duplicate_dle (unitelway : List Nat) (start_index : Nat) : List Nat :=
  unitelway.take start_index ++ duplicate_dle_tail (unitelway.drop start_index)

/-- Tail of `utils.delete_dle` (utils.py lines 211-225): a non-DLE byte is
kept; a DLE byte is dropped and the byte after it (whatever its value) is
appended instead, with both consumed; a DLE that is the last byte is dropped
with nothing appended (the Python `try`/`except` swallows the IndexError). -/
def delete_dle_tail : List Nat → List Nat
  | [] => []
  | [b] => if b ≠ DLE then [b] else []
  | b :: b1 :: rest1 =>
    if b ≠ DLE then b :: delete_dle_tail (b1 :: rest1)
    else b1 :: delete_dle_tail rest1

/-- `utils.delete_dle`: keeps the first three bytes, then unstuffs. -/
def delete_dle (unitelway : List Nat) : List Nat :=
  unitelway.take 3 ++ delete_dle_tail (unitelway.drop 3)

/-- Chunking loop of `utils.split_list_n`, structurally recursive on fuel.
Each step on a nonempty list with `n ≥ 1` drops at least one element, so
`l.length` steps always suffice; the wrapper passes `l.length + 1`. -/
def split_list_n_loop (n : Nat) : Nat → List Nat → List (List Nat)
  | 0, _ => []
  | _, [] => []
  | fuel + 1, a :: as =>
    if n = 0 then []
    else ((a :: as).take n) :: split_list_n_loop n fuel ((a :: as).drop n)

/-- `utils.split_list_n`: split a list into chunks of `n` elements, the last
chunk possibly short. (`n = 0` raises ZeroDivisionError in Python and is never
used; it is mapped to `[]`.) -/
def split_list_n (l : List Nat) (n : Nat) : List (List Nat) :=
  split_list_n_loop n (l.length + 1) l

/-- Outcome of the inner loop of `utils.sublist_in_list` run on the suffixes
`list[i:]` and `sublist`: full match, first mismatch at offset `d` (Python then
sets `i = i + d` and breaks), or the haystack ran out first (Python leaves `i`
unchanged). -/
inductive SilProbe
  | matched
  | mism (d : Nat)
  | ranout
deriving DecidableEq, Repr

/-- Inner loop of `utils.sublist_in_list` (lines 106-112). -/
def sil_probe : List Nat → List Nat → SilProbe
  | _, [] => .matched
  | [], _ :: _ => .ranout
  | x :: l1, s :: sub1 =>
    if x ≠ s then .mism 0
    else
      match sil_probe l1 sub1 with
      | .mism d => .mism (d + 1)
      | r => r

/-- Outer loop of `utils.sublist_in_list` from index `i`. On a mismatch at
inner offset `d` Python resumes the scan at `i + d + 1` (this skips positions
and can miss overlapping matches, faithfully reproduced here); when the inner
loop ran out of haystack it resumes at `i + 1`. Not found yields `(False, -1)`.
The scan continues only while `i < l.length` and `i` strictly increases, so
`l.length` steps always suffice; the wrapper passes `l.length + 1` as fuel. -/
def sublist_in_list_from (l sub : List Nat) : Nat → Nat → Bool × Int
  | 0, _ => (false, -1)
  | fuel + 1, i =>
    if i < l.length then
      if l.getD i 0 = sub.getD 0 0 then
        match sil_probe (l.drop i) sub with
        | .matched => (true, (i : Int))
        | .mism d => sublist_in_list_from l sub fuel (i + d + 1)
        | .ranout => sublist_in_list_from l sub fuel (i + 1)
      else sublist_in_list_from l sub fuel (i + 1)
    else (false, -1)

/-- `utils.sublist_in_list`. -/
def sublist_in_list (l sub : List Nat) : Bool × Int :=
  sublist_in_list_from l sub (l.length + 1) 0

/-- Decode-side error outcomes (errors.py), plus `indexError` for an uncaught
Python IndexError. `badChecksum` carries the constructor arguments in the order
the source passes them: `BadUnitelwayChecksum(response[-1], computed_bcc)`,
i.e. `expected` is the received trailing byte and `got` the recomputed sum. -/
inductive UnwrapError
  | indexError
  | badChecksum (expected got : Nat)
  | refusedUnitelwayMessage
  | uniteRequestFailed
  | unexpectedUniteResponse (expected got : Nat)
  | unexpectedObjectTypeResponse (expected got : Nat)
deriving DecidableEq, Repr

/-- Decidable equality of decode outcomes, for evaluating concrete frames. -/
instance exceptDecEq {ε α : Type} [DecidableEq ε] [DecidableEq α] :
    DecidableEq (Except ε α) := fun a b =>
  match a, b with
  | .error e1, .error e2 =>
    if h : e1 = e2 then .isTrue (by rw [h]) else .isFalse (by simp [h])
  | .error _, .ok _ => .isFalse (by simp)
  | .ok _, .error _ => .isFalse (by simp)
  | .ok v1, .ok v2 =>
    if h : v1 = v2 then .isTrue (by rw [h]) else .isFalse (by simp [h])

/-- `conversion.keep_response_bytes`: truncate to the computed length
(Python slicing clamps). -/
def keep_response_bytes (response : List Nat) : Option (List Nat) :=
  match compute_response_length response with
  | none => none
  | some length => some (response.take length)

/-- `conversion.unwrap_unitelway_response`: unstuff, reread the length byte at
offset 3 (IndexError if missing) and keep `4 + length + 1` bytes. -/
def unwrap_unitelway_response (response : List Nat) : Option (List Nat) :=
  let without_dle := delete_dle response
  match without_dle[3]? with
  | none => none
  | some length => some (without_dle.take (4 + length + 1))

/-- `conversion.unitelway_to_xway`: `response[4:-1]`. -/
def unitelway_to_xway (response : List Nat) : List Nat :=
  (response.drop 4).dropLast

/-- `conversion.xway_to_unite`: type byte 0x22 means refused; else drop the
6-byte X-WAY header. -/
def xway_to_unite (response : List Nat) : Except UnwrapError (List Nat) :=
  match response[0]? with
  | none => .error .indexError
  | some t => if t = 0x22 then .error .refusedUnitelwayMessage else .ok (response.drop 6)

/-- `conversion.unwrap_unite_response`: truncate, verify the checksum on the
raw (still stuffed) truncated frame, then unstuff, peel X-WAY, and check the
UNI-TE code for 0xFD. -/
def unwrap_unite_response (response : List Nat) : Except UnwrapError (List Nat) :=
  match keep_response_bytes response with
  | none => .error .indexError
  | some response1 =>
    if check_unitelway response1 = false then
      .error (.badChecksum ((response1.getLast?).getD 0) (compute_bcc response1.dropLast))
    else
      match unwrap_unitelway_response response1 with
      | none => .error .indexError
      | some unitelway_bytes =>
        let xway_bytes := unitelway_to_xway unitelway_bytes
        match xway_to_unite xway_bytes with
        | .error e => .error e
        | .ok unite_bytes =>
          match unite_bytes[0]? with
          | none => .error .indexError
          | some code =>
            if code = 0xFD then .error .uniteRequestFailed else .ok unite_bytes

/-- `conversion.parse_read_word_result`: `int.from_bytes(bytes, "little",
signed=True)`, via the unsigned little-endian value. -/
def from_le_unsigned : List Nat → Nat
  | [] => 0
  | b :: rest => b + 256 * from_le_unsigned rest

/-- `conversion.parse_read_word_result` as a signed integer. -/
def parse_read_word_result (bytes : List Nat) : Int :=
  let u := from_le_unsigned bytes
  if u ≥ 2 ^ (8 * bytes.length - 1) then (u : Int) - 2 ^ (8 * bytes.length) else (u : Int)

/-- `conversion.parse_read_words_result`: on a type-echo mismatch the source
raises `UnexpectedObjectTypeResponse(expected_obj_type, bytes[1])` — note the
second byte, not the mismatching first one (IndexError if there is no second
byte); on a match it splits the remaining bytes into `obj_size` chunks. -/
def parse_read_words_result (expected_obj_type obj_size : Nat) (bytes : List Nat) :
    Except UnwrapError (List Int) :=
  match bytes[0]? with
  | none => .error .indexError
  | some b0 =>
    if b0 ≠ expected_obj_type then
      match bytes[1]? with
      | none => .error .indexError
      | some b1 => .error (.unexpectedObjectTypeResponse expected_obj_type b1)
    else
      .ok ((split_list_n (bytes.drop 1) obj_size).map parse_read_word_result)

/-- `conversion.parse_read_bits_result`. The Python value is a dict mapping an
address to a bool (no forcing) or a pair of bools (forcing); this typed model
uses `Bool × Option Bool`, the forcing component being `some` exactly when
`has_forcing` is set. The same `bytes[1]`-as-`got` behaviour as in
`parse_read_words_result` is reproduced on a type-echo mismatch. -/
def parse_read_bits_result (expected_obj_type start_address number : Nat)
    (bytes : List Nat) (has_forcing : Bool) :
    Except UnwrapError (List (Nat × (Bool × Option Bool))) :=
  match bytes[0]? with
  | none => .error .indexError
  | some b0 =>
    if b0 ≠ expected_obj_type then
      match bytes[1]? with
      | none => .error .indexError
      | some b1 => .error (.unexpectedObjectTypeResponse expected_obj_type b1)
    else
      let bytes1 := bytes.drop 1
      let bytes_number := number / 8
      .ok ((List.range number).map (fun i =>
        let vbyte_idx := i / 8
        let voffset := i % 8
        let value := (bytes1.getD vbyte_idx 0) &&& (1 <<< voffset) != 0
        let forcing :=
          if has_forcing then
            some ((bytes1.getD (vbyte_idx + bytes_number) 0) &&& (1 <<< voffset) != 0)
          else none
        (start_address + i, (value, forcing))))

/-- `conversion._parse_read_bit_bytes` with `has_forcing=True`: builds the
8-entry dict from `start_address = address - address % 8`, then returns
`(*result[address], result)`. The dict key `address` is always present
(`address % 8 < 8`), so the lookup default is never used. -/
def parse_read_bit_bytes_forcing (address values_bits forcing_bits : Nat) :
    Bool × Bool × List (Nat × (Bool × Bool)) :=
  let offset := address % 8
  let start_address := address - offset
  let result := (List.range 8).map (fun i =>
    (i + start_address,
      (values_bits &&& (1 <<< i) != 0, forcing_bits &&& (1 <<< i) != 0)))
  let t := (result.lookup address).getD (false, false)
  (t.1, t.2, result)

/-- `conversion._parse_read_bit_bytes` with `has_forcing=False`. -/
def parse_read_bit_bytes_plain (address values_bits : Nat) :
    Bool × List (Nat × Bool) :=
  let offset := address % 8
  let start_address := address - offset
  let result := (List.range 8).map (fun i =>
    (i + start_address, values_bits &&& (1 <<< i) != 0))
  let t := (result.lookup address).getD false
  (t, result)

/-- `conversion.parse_read_bit_result` with `has_forcing=True`: reads
`bytes[0]` and `bytes[1]` (IndexError if absent). -/
def parse_read_bit_result_forcing (address : Nat) (bytes : List Nat) :
    Option (Bool × Bool × List (Nat × (Bool × Bool))) :=
  match bytes[0]?, bytes[1]? with
  | some b0, some b1 => some (parse_read_bit_bytes_forcing address b0 b1)
  | _, _ => none

/-- `client.UnitelwayClient.__init__`: `self._unitelway_start = [DLE, STX,
slave_address]`. -/
def unitelway_start (slave_address : Nat) : List Nat :=
  [DLE, STX, slave_address]

/-- `client.UnitelwayClient.__init__`: `self._xway_start = [0x20, network,
station, gate, ext1, ext2]`. -/
def xway_start (network station gate ext1 ext2 : Nat) : List Nat :=
  [0x20, network, station, gate, ext1, ext2]

/-- `client._unite_to_xway`: prepend the X-WAY header. -/
def unite_to_xway (network station gate ext1 ext2 : Nat) (unite_bytes : List Nat) :
    List Nat :=
  xway_start network station gate ext1 ext2 ++ unite_bytes

/-- `client._xway_to_unitelway`: header, length (doubled first when it equals
DLE), payload, DLE stuffing from the first payload byte, then the BCC of the
stuffed frame. -/
def xway_to_unitelway (slave_address : Nat) (xway_bytes : List Nat) : List Nat :=
  let unitelway_bytes := unitelway_start slave_address
  let length := xway_bytes.length
  let unitelway_bytes := if length = DLE then unitelway_bytes ++ [DLE] else unitelway_bytes
  let unitelway_bytes := unitelway_bytes ++ [xway_bytes.length]
  let unitelway_data_start := unitelway_bytes.length
  let unitelway_bytes := unitelway_bytes ++ xway_bytes
  let unitelway_bytes := duplicate_dle unitelway_bytes unitelway_data_start
  let bcc := compute_bcc unitelway_bytes
  unitelway_bytes ++ [bcc]

/-- `client._unite_to_unitelway`: chain `_unite_to_xway` and
`_xway_to_unitelway`. -/
def unite_to_unitelway (slave_address network station gate ext1 ext2 : Nat)
    (unite_bytes : List Nat) : List Nat :=
  xway_to_unitelway slave_address (unite_to_xway network station gate ext1 ext2 unite_bytes)

/-- The post-response check of `client.read_internal_word` (client.py lines
517-520): `resp[0]` must satisfy `is_valid_response_code`, else
`UnexpectedUniteResponse(get_response_code(READ_INTERNAL_WORD), resp[0])`,
then `parse_read_word_result(resp[1:])`. -/
def read_internal_word_response (resp : List Nat) : Except UnwrapError Int :=
  match resp[0]? with
  | none => .error .indexError
  | some r0 =>
    if is_valid_response_code READ_INTERNAL_WORD r0 = false then
      .error (.unexpectedUniteResponse (get_response_code READ_INTERNAL_WORD) r0)
    else .ok (parse_read_word_result (resp.drop 1))

/-!
The poll/turn state machine. The transport is modelled as the queue of bytes
the adapter will deliver, in order; `recv n` yields `take n`/`drop n`. A
`recv` on an exhausted queue blocks forever in Python and is modelled as
`none`. Wall-clock time is not modelled: every read is instantaneous, so the
non-VPN timeout check `end - start >= timeout` can only fire when
`timeout = 0`; a fired timeout (Python returns `None` and the engine
retries on the same, still exhausted, transport) is also folded into `none`.
-/

/-- Loop of `client.is_my_turn_to_talk`, structurally recursive on fuel.
Each pass consumes at least one queued byte, so `stream.length + 1` fuel (as
passed by the wrapper) can never run out before a genuine exit. -/
def is_my_turn_loop (address : Nat) : Nat → List Nat → List Nat → Option (List Nat)
  | 0, _, _ => none
  | fuel + 1, buf, stream =>
    match stream with
    | [] => none
    | s0 :: srest =>
      let buf1 := buf ++ (s0 :: srest).take 3
      let stream1 := (s0 :: srest).drop 3
      if (sublist_in_list buf1 [DLE, ENQ, address]).fst then some stream1
      else is_my_turn_loop address fuel buf1 stream1

/-- `client.is_my_turn_to_talk`: read 3 bytes at a time, accumulate, and stop
once `[DLE, ENQ, address]` occurs in the buffer. Returns the unconsumed rest
of the queue (Python returns `True`; the socket keeps the rest). -/
def is_my_turn_to_talk (address : Nat) (stream : List Nat) : Option (List Nat) :=
  is_my_turn_loop address (stream.length + 1) [] stream

/-- Loop of `client._wait_unite_response`, structurally recursive on fuel.
Each pass consumes at least three queued bytes, so `stream.length + 1` fuel
(as passed by the wrapper) can never run out before a genuine exit: read 3
bytes, delete the first `[DLE, ENQ, nb]` triple found (bounds-checked pops),
look for `[DLE, STX]`; if found, read one more byte and compare
`buf[idx + 2]` with the link address — on a match, deliver `buf[idx:]` plus
up to 256 further bytes. -/
def wait_unite_loop (link_address : Nat) (vpn_mode : Bool) (timeout : Nat) :
    Nat → List Nat → List Nat → Option (List Nat)
  | 0, _, _ => none
  | fuel + 1, buf, stream =>
    match stream with
    | [] => none
    | s0 :: srest =>
      let buf1 := buf ++ (s0 :: srest).take 3
      let stream1 := (s0 :: srest).drop 3
      let res := sublist_in_list buf1 [DLE, ENQ]
      let buf2 :=
        if res.fst then buf1.take res.snd.toNat ++ buf1.drop (res.snd.toNat + 3) else buf1
      let tmp := sublist_in_list buf2 [DLE, STX]
      if tmp.fst then
        match stream1 with
        | [] => none
        | b :: stream2 =>
          let buf3 := buf2 ++ [b]
          if buf3.getD (tmp.snd.toNat + 2) 0 = link_address then
            match stream2 with
            | [] => none
            | _ :: _ => some (buf3.drop tmp.snd.toNat ++ stream2.take 256)
          else
            if vpn_mode = false ∧ timeout = 0 then none
            else wait_unite_loop link_address vpn_mode timeout fuel buf3 stream2
      else
        if vpn_mode = false ∧ timeout = 0 then none
        else wait_unite_loop link_address vpn_mode timeout fuel buf2 stream1

/-- `client._wait_unite_response` on a fresh buffer. -/
def wait_unite_response (link_address : Nat) (vpn_mode : Bool) (timeout : Nat)
    (stream : List Nat) : Option (List Nat) :=
  wait_unite_loop link_address vpn_mode timeout (stream.length + 1) [] stream

/-- `client.run_unite` over `_unite_query_until_response`: in non-VPN mode,
wait for the own-address enquiry token, send (outbound bytes do not affect the
inbound queue), wait for the response frame, and decode it. The retry loop
only re-enters after a timeout, which the instantaneous-read model folds into
`none`, so a single attempt is modelled. -/
def run_unite (address : Nat) (vpn_mode : Bool) (timeout : Nat) (stream : List Nat) :
    Option (Except UnwrapError (List Nat)) :=
  if vpn_mode then
    (wait_unite_response address vpn_mode timeout stream).map unwrap_unite_response
  else
    match is_my_turn_to_talk address stream with
    | none => none
    | some rest =>
      (wait_unite_response address vpn_mode timeout rest).map unwrap_unite_response

/-! Helper lemmas. -/

/-- A DLE-free list is left unchanged by the stuffing pass. -/
lemma duplicate_dle_tail_no_dle (l : List Nat) (h : ∀ b ∈ l, b ≠ DLE) :
    duplicate_dle_tail l = l := by
  induction l with
  | nil => rfl
  | cons b rest ih =>
    have hb : b ≠ DLE := h b (List.mem_cons_self b rest)
    simp only [duplicate_dle_tail, if_neg hb]
    rw [ih (fun x hx => h x (List.mem_cons_of_mem b hx))]

/-- A DLE-free list is left unchanged by the unstuffing pass. -/
lemma delete_dle_tail_no_dle (l : List Nat) (h : ∀ b ∈ l, b ≠ DLE) :
    delete_dle_tail l = l := by
  induction l with
  | nil => rfl
  | cons b rest ih =>
    have hb : b ≠ DLE := h b (List.mem_cons_self b rest)
    cases rest with
    | nil => simp [delete_dle_tail, hb]
    | cons b1 rest1 =>
      simp only [delete_dle_tail, if_pos hb]
      rw [ih (fun x hx => h x (List.mem_cons_of_mem b hx))]

/-- Running the length walk over `n` DLE-free in-bounds bytes counts each of
them once and stops one byte later. -/
lemma crl_loop_count (u : List Nat) (L : Nat) :
    ∀ (n fuel i cnt : Nat), cnt + n = L + 1 → n + 1 ≤ fuel →
      (∀ k, k < n → u.getD (i + k) 0 ≠ DLE) →
      i + n < u.length →
      crl_loop u L fuel i cnt = some (i + n + 1) := by
  intro n
  induction n with
  | zero =>
    intro fuel i cnt hcnt hfuel _ _
    obtain ⟨fuel1, rfl⟩ : ∃ f, fuel = f + 1 := ⟨fuel - 1, by omega⟩
    have : ¬ (cnt ≤ L) := by omega
    simp [crl_loop, this]
  | succ m ih =>
    intro fuel i cnt hcnt hfuel hbytes hlen
    obtain ⟨fuel1, rfl⟩ : ∃ f, fuel = f + 1 := ⟨fuel - 1, by omega⟩
    have hle : cnt ≤ L := by omega
    have hi1 : i + 1 < u.length := by omega
    have hb : u.getD i 0 ≠ DLE := by
      have := hbytes 0 (by omega)
      simpa using this
    have hcond : ¬ (u.getD i 0 = (DLE &&& u.getD (i + 1) 0)
        ∧ (DLE &&& u.getD (i + 1) 0) = DLE) := by
      rintro ⟨h1, h2⟩
      exact hb (h1.trans h2)
    simp only [crl_loop, if_pos hle, if_pos hi1, if_neg hcond]
    have hrec := ih fuel1 (i + 1) (cnt + 1) (by omega) (by omega)
      (fun k hk => by
        have := hbytes (k + 1) (by omega)
        simpa [Nat.add_assoc, Nat.add_comm 1 k] using this)
      (by omega)
    rw [hrec]
    congr 1
    omega

/-! Claim theorems. -/

/-- Claim C1. For the payload `P = [0x10, 0x30]` (slave address 1, all X-WAY
address bytes 0) the encoder does double every payload 0x10 on the wire (the
frame below shows `0x10, 0x10` at offsets 10-11), but the decode of that very
frame is not `P`: the length walk's chained `==`/`&` condition treats the pair
`(0x10, 0x30)` as a doubled DLE because 0x30 has bit 4 set, walks one byte too
far, and reads past the end of the frame — Python raises IndexError, so the
round trip fails. -/
theorem claim_C1_dle_roundtrip_fails_eval :
    unite_to_unitelway 1 0 0 0 0 0 [0x10, 0x30]
      = [0x10, 0x02, 0x01, 0x08, 0x20, 0, 0, 0, 0, 0, 0x10, 0x10, 0x30, 0x8B]
  ∧ unwrap_unite_response [0x10, 0x02, 0x01, 0x08, 0x20, 0, 0, 0, 0, 0, 0x10, 0x10, 0x30, 0x8B]
      = .error .indexError := by decide

/-- Claim C2. On the buffer `[0x10, 0x02, 0x01, 0x02, 0x10, 0x30, 0x55, 0x00]`
(length byte 2, payload `0x10, 0x30`, BCC `0x55`, one trailing byte) the
source's length walk counts the pair `(0x10, 0x30)` as a single logical
payload byte — its condition only demands bit 4 of the second byte — and
returns 8, whereas the walk the claim describes (a pair counts as one byte
exactly when both bytes equal 0x10) returns 7, one byte past the BCC. -/
theorem claim_C2_length_walk_bitand_eval :
    compute_response_length [0x10, 0x02, 0x01, 0x02, 0x10, 0x30, 0x55, 0x00] = some 8
  ∧ compute_response_length_spec [0x10, 0x02, 0x01, 0x02, 0x10, 0x30, 0x55, 0x00] = some 7 := by
  decide

/-- Claim C3, counterexample. For the DLE-free payload `P` of ten zero bytes the
X-WAY length is 6 + 10 = 0x10, so the encoder doubles the length byte; the
decoder's length walk starts right after the first 0x10 of that doubled pair
and never skips the second one, computes a length one byte short, drops the
real BCC from the truncated frame, and the checksum check fails — the decode
is `BadUnitelwayChecksum` instead of `P`. -/
theorem claim_C3_counterexample :
    unwrap_unite_response (unite_to_unitelway 1 0 0 0 0 0 (List.replicate 10 0))
      = .error (.badChecksum 0 0x53)
  ∧ unwrap_unite_response (unite_to_unitelway 1 0 0 0 0 0 (List.replicate 10 0))
      ≠ .ok (List.replicate 10 0) := by decide

/-- Claim C4, counterexample. Feeding the claim's literal byte stream (with
`my_addr = 1`, `net, sta, gate, e1, e2 = 2, 3, 4, 5, 6`, length byte 0x06 as
written in the claim, and the trailing BCC chosen as the modulo-256 sum of all
preceding frame bytes) the turn-taking does succeed, but the engine does not
return `[0xFE]`: the length byte 0x06 is inconsistent with the 7-byte
X-WAY-plus-UNI-TE payload, so the length walk ends one byte early, the 0xFE
byte is taken for the BCC, and decoding fails with `BadUnitelwayChecksum`. -/
theorem claim_C4_counterexample :
    run_unite 1 false 5
        [0x10, 0x05, 0x07, 0x10, 0x05, 0x03, 0x10, 0x05, 0x01,
         0x10, 0x02, 0x01, 0x06, 0x20, 2, 3, 4, 5, 6, 0xFE, 0x4B]
      = some (.error (.badChecksum 0xFE 0x4D))
  ∧ run_unite 1 false 5
        [0x10, 0x05, 0x07, 0x10, 0x05, 0x03, 0x10, 0x05, 0x01,
         0x10, 0x02, 0x01, 0x06, 0x20, 2, 3, 4, 5, 6, 0xFE, 0x4B]
      ≠ some (.ok [0xFE]) := by decide

/-- Claim C4, as amended: with the length byte 0x07 (matching the 7-byte
X-WAY + UNI-TE payload) and the BCC equal to the modulo-256 sum of the
preceding frame bytes, the claimed behaviour holds on the modelled machine:
the two foreign enquiries (addresses 7 and 3) are discarded, the turn check
succeeds exactly after the own-address token (9 bytes consumed), the wait
loop delivers the buffer starting at `0x10, 0x02, my_addr`, and the engine
returns the UNI-TE bytes `[0xFE]`. -/
theorem claim_C4_poll_filtering_amended :
    is_my_turn_to_talk 1
        [0x10, 0x05, 0x07, 0x10, 0x05, 0x03, 0x10, 0x05, 0x01,
         0x10, 0x02, 0x01, 0x07, 0x20, 2, 3, 4, 5, 6, 0xFE, 0x4C]
      = some [0x10, 0x02, 0x01, 0x07, 0x20, 2, 3, 4, 5, 6, 0xFE, 0x4C]
  ∧ wait_unite_response 1 false 5
        [0x10, 0x02, 0x01, 0x07, 0x20, 2, 3, 4, 5, 6, 0xFE, 0x4C]
      = some [0x10, 0x02, 0x01, 0x07, 0x20, 2, 3, 4, 5, 6, 0xFE, 0x4C]
  ∧ run_unite 1 false 5
        [0x10, 0x05, 0x07, 0x10, 0x05, 0x03, 0x10, 0x05, 0x01,
         0x10, 0x02, 0x01, 0x07, 0x20, 2, 3, 4, 5, 6, 0xFE, 0x4C]
      = some (.ok [0xFE]) := by decide

/-- Claim C7. On a `READ_OBJECTS` words response whose first body byte 0x05
differs from the requested type 0x07, the parser raises the object-type error
with `got = bytes[1] = 0x2C` — the byte after the echo — instead of the
mismatching first body byte 0x05; the bits parser behaves the same way
(`got = 0xFF`, not the echoed 0x06); and when the first body byte matches, no
error is raised. -/
theorem claim_C7_object_type_error_eval :
    parse_read_words_result 0x07 2 [0x05, 0x2C, 0x01]
      = .error (.unexpectedObjectTypeResponse 0x07 0x2C)
  ∧ parse_read_bits_result 0x05 0 8 [0x06, 0xFF, 0x00] true
      = .error (.unexpectedObjectTypeResponse 0x05 0xFF)
  ∧ parse_read_words_result 0x07 2 [0x07, 0x2C, 0x01] = .ok [300] := by decide

/-- Claim C9. Parsing the READ_INTERNAL_BIT response `[0x80, 0x40]` for
address 255 yields value `true` (bit 7 of the value byte 0x80), forcing
`false` (bit 7 of the forcing byte 0x40), and a map whose keys are exactly
248..255 where address `a` gets bit `a - 248` of the value byte and, for
forcing, the same bit of the forcing byte. -/
theorem claim_C9_read_bit_layout :
    parse_read_bit_result_forcing 255 [0x80, 0x40]
      = some (true, false,
          [(248, false, false), (249, false, false), (250, false, false),
           (251, false, false), (252, false, false), (253, false, false),
           (254, false, true), (255, true, false)]) := by decide

/-- Claim C10. From offset 3 on, `delete_dle` drops every 0x10 byte and keeps
the single byte that follows it whatever its value; a 0x10 that is the last
byte of the buffer is dropped with nothing appended, so the output of the
concrete buffer `[0x10, 0x02, 0x01, 0x05, 0xAA, 0x10]` (whose BCC position
holds 0x10) is one byte shorter than an unstuffing that kept the lone 0x10
would produce. -/
theorem claim_C10_delete_dle_behaviour :
    (∀ (y : Nat) (rest : List Nat),
        delete_dle_tail (DLE :: y :: rest) = y :: delete_dle_tail rest)
  ∧ delete_dle_tail [DLE] = []
  ∧ (∀ (a b c : Nat) (tail : List Nat),
        delete_dle (a :: b :: c :: tail) = a :: b :: c :: delete_dle_tail tail)
  ∧ delete_dle [0x10, 0x02, 0x01, 0x05, 0xAA, 0x10] = [0x10, 0x02, 0x01, 0x05, 0xAA] := by
  refine ⟨fun y rest => ?_, by decide, fun a b c tail => ?_, by decide⟩
  · simp [delete_dle_tail]
  · simp [delete_dle]

/-- Stuffing a payload placed after a prefix of the same length as the start
index leaves the prefix untouched and stuffs exactly the payload. -/
lemma duplicate_dle_append (pre xs : List Nat) :
    duplicate_dle (pre ++ xs) pre.length = pre ++ duplicate_dle_tail xs := by
  simp [duplicate_dle, List.take_left, List.drop_left]

/-- The last byte of `body ++ [compute_bcc body]` is the modulo-256 sum of the
bytes before it. -/
lemma bcc_concat (body : List Nat) :
    ((body ++ [compute_bcc body]).dropLast).sum % 256
      = ((body ++ [compute_bcc body]).getLast?).getD 0 := by
  simp [compute_bcc]

/-- Claim C5. Encoder side: in every frame built by `_xway_to_unitelway` the
final byte (the BCC) is the modulo-256 sum of all preceding frame bytes — and
those preceding bytes are the post-stuffing ones, since the BCC is appended to
the already stuffed buffer. Decoder side: on the truncated frame `t`, while it
is still stuffed (`delete_dle` has not run), a failing checksum comparison
`sum(t[:-1]) % 256 == t[-1]` makes `unwrap_unite_response` stop with
`BadUnitelwayChecksum` carrying the received trailing byte and the recomputed
sum. -/
theorem claim_C5_bcc_discipline :
    (∀ (slave_address : Nat) (xway_bytes : List Nat),
        ((xway_to_unitelway slave_address xway_bytes).dropLast).sum % 256
          = ((xway_to_unitelway slave_address xway_bytes).getLast?).getD 0)
  ∧ (∀ (response t : List Nat), keep_response_bytes response = some t →
        check_unitelway t = false →
        unwrap_unite_response response
          = .error (.badChecksum ((t.getLast?).getD 0) (t.dropLast.sum % 256))) := by
  constructor
  · intro slave_address xway_bytes
    exact bcc_concat _
  · intro response t hkeep hcheck
    simp only [unwrap_unite_response, hkeep]
    rw [hcheck]
    simp [compute_bcc]

/-- Claim C5, witness: the 6-byte buffer `[0x10, 0x02, 0x01, 0x01, 0xAA, 0x00]`
is kept whole by the length walk, its checksum comparison fails (sum 0xBE
against trailing 0x00), and decoding reports exactly that. -/
theorem claim_C5_bcc_discipline_witness :
    keep_response_bytes [0x10, 0x02, 0x01, 0x01, 0xAA, 0x00]
      = some [0x10, 0x02, 0x01, 0x01, 0xAA, 0x00]
  ∧ unwrap_unite_response [0x10, 0x02, 0x01, 0x01, 0xAA, 0x00]
      = .error (.badChecksum 0 0xBE) := by
  refine ⟨by decide, ?_⟩
  have h := claim_C5_bcc_discipline.2 [0x10, 0x02, 0x01, 0x01, 0xAA, 0x00]
    [0x10, 0x02, 0x01, 0x01, 0xAA, 0x00] (by decide) (by decide)
  rw [h]
  decide

/-- Claim C6. For every X-WAY payload of length exactly 0x10 the encoded frame
carries two consecutive 0x10 bytes at offsets 3 and 4 (the doubled length
byte), and the stuffing pass starts at the first payload byte, so the frame is
exactly header, doubled length, stuffed payload, BCC — the doubled length byte
is not doubled again. -/
theorem claim_C6_length_byte_stuffing (slave_address : Nat) (xway_bytes : List Nat)
    (hlen : xway_bytes.length = 0x10) :
    (xway_to_unitelway slave_address xway_bytes)[3]? = some DLE
  ∧ (xway_to_unitelway slave_address xway_bytes)[4]? = some DLE
  ∧ xway_to_unitelway slave_address xway_bytes
      = [DLE, STX, slave_address, DLE, DLE] ++ duplicate_dle_tail xway_bytes
        ++ [compute_bcc ([DLE, STX, slave_address, DLE, DLE]
              ++ duplicate_dle_tail xway_bytes)] := by
  have hdle : xway_bytes.length = DLE := hlen
  have hpre : (unitelway_start slave_address ++ [DLE]) ++ [DLE]
      = [DLE, STX, slave_address, DLE, DLE] := by
    simp [unitelway_start]
  have hframe : xway_to_unitelway slave_address xway_bytes
      = [DLE, STX, slave_address, DLE, DLE] ++ duplicate_dle_tail xway_bytes
        ++ [compute_bcc ([DLE, STX, slave_address, DLE, DLE]
              ++ duplicate_dle_tail xway_bytes)] := by
    simp only [xway_to_unitelway]
    rw [if_pos hdle, hdle, hpre, duplicate_dle_append]
  refine ⟨?_, ?_, hframe⟩
  · rw [hframe]; simp
  · rw [hframe]; simp

/-- Claim C6, witness: the all-zero payload of length 16 gives the frame
`[0x10, 0x02, 0x00, 0x10, 0x10, 0, …, 0, 0x32]`. -/
theorem claim_C6_length_byte_stuffing_witness :
    (List.replicate 16 0).length = 0x10
  ∧ (xway_to_unitelway 0 (List.replicate 16 0))[3]? = some DLE
  ∧ (xway_to_unitelway 0 (List.replicate 16 0))[4]? = some DLE := by
  refine ⟨by decide, ?_, ?_⟩
  · exact (claim_C6_length_byte_stuffing 0 (List.replicate 16 0) (by decide)).1
  · exact (claim_C6_length_byte_stuffing 0 (List.replicate 16 0) (by decide)).2.1

/-- Claim C8. After a READ_INTERNAL_WORD request (code 0x04) the client
accepts a response whose first byte is the expected code 0x34 = 0x04 + 0x30
(and parses the remaining bytes as the word value), and for a first byte that
is neither 0x34 nor 0xFD it raises
`UnexpectedUniteResponse(expected = 0x34, got = that byte)`. -/
theorem claim_C8_response_code_check (b : Nat) (rest : List Nat) :
    (b = 0x34 →
      read_internal_word_response (b :: rest) = .ok (parse_read_word_result rest))
  ∧ (b ≠ 0x34 → b ≠ 0xFD →
      read_internal_word_response (b :: rest)
        = .error (.unexpectedUniteResponse 0x34 b)) := by
  have hresp : get_response_code READ_INTERNAL_WORD = 0x34 := by decide
  constructor
  · intro hb
    subst hb
    simp [read_internal_word_response, is_valid_response_code, hresp]
  · intro h34 hfd
    simp [read_internal_word_response, is_valid_response_code, hresp, h34, hfd]

/-- Claim C8, witness: the response `[0x34, 0x2C, 0x01]` is accepted and parses
to 300, while `[0x99]` raises `UnexpectedUniteResponse(0x34, 0x99)`. -/
theorem claim_C8_response_code_check_witness :
    read_internal_word_response [0x34, 0x2C, 0x01] = .ok 300
  ∧ read_internal_word_response [0x99]
      = .error (.unexpectedUniteResponse 0x34 0x99) := by
  constructor
  · have h := (claim_C8_response_code_check 0x34 [0x2C, 0x01]).1 rfl
    rw [h]
    decide
  · exact (claim_C8_response_code_check 0x99 []).2 (by decide) (by decide)

/-- Shape of an encoded frame whose X-WAY payload is DLE-free and whose length
differs from DLE: header, plain length byte, unstuffed payload, BCC. -/
lemma frame_shape (sa : Nat) (xw : List Nat) (hlenne : xw.length ≠ DLE)
    (hnodle : ∀ b ∈ xw, b ≠ DLE) :
    xway_to_unitelway sa xw
      = ([DLE, STX, sa, xw.length] ++ xw)
        ++ [([DLE, STX, sa, xw.length] ++ xw).sum % 256] := by
  simp only [xway_to_unitelway]
  rw [if_neg hlenne]
  have hpre : unitelway_start sa ++ [xw.length] = [DLE, STX, sa, xw.length] := by
    simp [unitelway_start]
  rw [hpre, duplicate_dle_append, duplicate_dle_tail_no_dle xw hnodle]
  simp [compute_bcc]

/-- The length walk over a frame with DLE-free payload consumes exactly the
payload and stops one byte past the BCC. -/
lemma crl_frame (sa bccv : Nat) (xw : List Nat) (hnodle : ∀ b ∈ xw, b ≠ DLE) :
    compute_response_length (([DLE, STX, sa, xw.length] ++ xw) ++ [bccv])
      = some (5 + xw.length) := by
  have h3 : (([DLE, STX, sa, xw.length] ++ xw) ++ [bccv])[3]? = some xw.length := by
    simp
  have hlenF : (([DLE, STX, sa, xw.length] ++ xw) ++ [bccv]).length = 5 + xw.length := by
    simp
    omega
  simp only [compute_response_length, h3]
  have hcount := crl_loop_count (([DLE, STX, sa, xw.length] ++ xw) ++ [bccv]) xw.length
      xw.length ((([DLE, STX, sa, xw.length] ++ xw) ++ [bccv]).length + 1) 4 1
      (by omega) (by rw [hlenF]; omega)
      (fun k hk => by
        have hidx : 4 + k - ([DLE, STX, sa, xw.length] : List Nat).length = k := by simp
        have hb1 : 4 + k < ([DLE, STX, sa, xw.length] ++ xw).length := by
          simp
          omega
        have hb2 : ([DLE, STX, sa, xw.length] : List Nat).length ≤ 4 + k := by simp
        rw [List.getD_eq_getElem?_getD, List.getElem?_append_left hb1,
          List.getElem?_append_right hb2, hidx, List.getElem?_eq_getElem hk]
        simpa using hnodle _ (List.getElem_mem hk))
      (by rw [hlenF]; omega)
  rw [hcount]
  congr 1
  omega

/-- Unstuffing leaves a frame alone when its length byte, payload and BCC all
differ from DLE. -/
lemma delete_frame (sa bccv : Nat) (xw : List Nat) (hnodle : ∀ b ∈ xw, b ≠ DLE)
    (hlenne : xw.length ≠ DLE) (hbccne : bccv ≠ DLE) :
    delete_dle (([DLE, STX, sa, xw.length] ++ xw) ++ [bccv])
      = ([DLE, STX, sa, xw.length] ++ xw) ++ [bccv] := by
  have hsplit : (([DLE, STX, sa, xw.length] ++ xw) ++ [bccv])
      = [DLE, STX, sa] ++ (xw.length :: (xw ++ [bccv])) := by simp
  rw [hsplit]
  have h3 : delete_dle ([DLE, STX, sa] ++ (xw.length :: (xw ++ [bccv])))
      = [DLE, STX, sa] ++ delete_dle_tail (xw.length :: (xw ++ [bccv])) := by
    simp only [delete_dle]
    rw [List.take_left' (by simp), List.drop_left' (by simp)]
  rw [h3, delete_dle_tail_no_dle]
  intro b hb
  simp only [List.mem_cons, List.mem_append, List.mem_singleton, List.not_mem_nil,
    or_false] at hb
  rcases hb with hb | hb | hb
  · rw [hb]; exact hlenne
  · exact hnodle b hb
  · rw [hb]; exact hbccne

/-- Claim C3, as amended. For every nonempty DLE-free payload `P` whose first
byte is not 0xFD, provided the five X-WAY address bytes are not DLE, the X-WAY
length `6 + |P|` is not DLE (otherwise the decoder mishandles the doubled
length byte, see the counterexample), and the frame's BCC is not DLE
(otherwise `delete_dle` drops it), decoding the encoded frame returns `P`. -/
theorem claim_C3_roundtrip_no_dle
    (slave_address network station gate ext1 ext2 : Nat) (P : List Nat)
    (hnet : network ≠ DLE) (hsta : station ≠ DLE) (hgate : gate ≠ DLE)
    (hext1 : ext1 ≠ DLE) (hext2 : ext2 ≠ DLE)
    (hP : DLE ∉ P) (hne : P ≠ []) (hfd : P[0]? ≠ some 0xFD)
    (hxlen : 6 + P.length ≠ DLE)
    (hbcc : ([DLE, STX, slave_address, 6 + P.length]
        ++ (xway_start network station gate ext1 ext2 ++ P)).sum % 256 ≠ DLE) :
    unwrap_unite_response
        (unite_to_unitelway slave_address network station gate ext1 ext2 P)
      = .ok P := by
  have hxwlen : (xway_start network station gate ext1 ext2 ++ P).length = 6 + P.length := by
    simp [xway_start]
    omega
  have hnodle : ∀ b ∈ xway_start network station gate ext1 ext2 ++ P, b ≠ DLE := by
    intro b hb
    simp only [xway_start, List.mem_append, List.mem_cons, List.not_mem_nil, or_false] at hb
    rcases hb with (hb | hb | hb | hb | hb | hb) | hb
    · rw [hb]; decide
    · rw [hb]; exact hnet
    · rw [hb]; exact hsta
    · rw [hb]; exact hgate
    · rw [hb]; exact hext1
    · rw [hb]; exact hext2
    · intro hcontra; rw [hcontra] at hb; exact hP hb
  have hlenne : (xway_start network station gate ext1 ext2 ++ P).length ≠ DLE := by
    rw [hxwlen]; exact hxlen
  have hframe := frame_shape slave_address
      (xway_start network station gate ext1 ext2 ++ P) hlenne hnodle
  have hbccne : ((([DLE, STX, slave_address,
        (xway_start network station gate ext1 ext2 ++ P).length]
      ++ (xway_start network station gate ext1 ext2 ++ P))).sum % 256) ≠ DLE := by
    rw [hxwlen]; exact hbcc
  -- abbreviations
  set xw := xway_start network station gate ext1 ext2 ++ P with hxwdef
  set B := [DLE, STX, slave_address, xw.length] ++ xw with hBdef
  set bccv := B.sum % 256 with hbccdef
  have hunfold : unite_to_unitelway slave_address network station gate ext1 ext2 P
      = B ++ [bccv] := by
    simp only [unite_to_unitelway, unite_to_xway]
    exact hframe
  rw [hunfold]
  -- length of the frame
  have hlenF : (B ++ [bccv]).length = 5 + xw.length := by
    simp [hBdef]
    omega
  -- the length walk keeps the whole frame
  have hkeep : keep_response_bytes (B ++ [bccv]) = some (B ++ [bccv]) := by
    simp only [keep_response_bytes, hBdef, crl_frame slave_address bccv xw hnodle]
    rw [← hBdef]
    rw [show 5 + xw.length = (B ++ [bccv]).length from hlenF.symm, List.take_length]
  -- the checksum check passes
  have hcheck : check_unitelway (B ++ [bccv]) = true := by
    simp [check_unitelway, compute_bcc, hbccdef]
  -- unstuffing leaves the frame alone and the length is reread
  have hdel : delete_dle (B ++ [bccv]) = B ++ [bccv] := by
    rw [hBdef]
    exact delete_frame slave_address bccv xw hnodle hlenne hbccne
  have h3 : (B ++ [bccv])[3]? = some xw.length := by
    simp [hBdef]
  have hulw : unwrap_unitelway_response (B ++ [bccv]) = some (B ++ [bccv]) := by
    simp only [unwrap_unitelway_response, hdel, h3]
    rw [show 4 + xw.length + 1 = (B ++ [bccv]).length from by omega, List.take_length]
  -- X-WAY extraction
  have hxway : unitelway_to_xway (B ++ [bccv]) = xw := by
    simp only [unitelway_to_xway, hBdef]
    rw [List.append_assoc, List.drop_left' (by simp)]
    simp
  -- UNI-TE extraction
  have hx0 : xw[0]? = some 0x20 := by
    simp [hxwdef, xway_start]
  have hunite : xway_to_unite xw = .ok P := by
    simp only [xway_to_unite, hx0]
    rw [if_neg (by decide)]
    rw [hxwdef, show xway_start network station gate ext1 ext2 ++ P
        = [0x20, network, station, gate, ext1, ext2] ++ P from by simp [xway_start],
      List.drop_left' (by simp)]
  -- final assembly
  obtain ⟨p0, P1, rfl⟩ := List.exists_cons_of_ne_nil hne
  have hp0 : p0 ≠ 0xFD := by
    simpa using hfd
  simp only [unwrap_unite_response, hkeep, hcheck, hulw, hxway, hunite]
  simp [hp0]

/-- Claim C3, witness: `P = [0x30]` with slave address 1 and all X-WAY address
bytes 0 round-trips to `[0x30]`. -/
theorem claim_C3_roundtrip_no_dle_witness :
    unwrap_unite_response (unite_to_unitelway 1 0 0 0 0 0 [0x30]) = .ok [0x30] :=
  claim_C3_roundtrip_no_dle 1 0 0 0 0 0 [0x30]
    (by decide) (by decide) (by decide) (by decide) (by decide)
    (by decide) (by decide) (by decide) (by decide) (by decide)

end Pyunitelway
